import Mathlib

/-!
Verification of the CarbonScore calculation engine
(`src/services/calculation/carbon_calculator.py`) against its specification.

The Python engine works on IEEE floats; we embed its arithmetic over `ℚ`
(exact rational arithmetic), model Python's `round(x, n)` and the `:.0f`
format rounding as round-half-to-even, and model the places where Python can
raise `ZeroDivisionError` with `Except String`.
-/

namespace CarbonScore

/-- Structured company data from the questionnaire
(carbon_calculator.py, `CompanyData`, lines 25-47). -/
structure CompanyData where
  nom : String
  secteur : String
  effectif : String
  chiffre_affaires : Option ℚ
  localisation : String
  electricite_kwh : ℚ
  gaz_kwh : ℚ
  carburants_litres : ℚ
  vehicules_km_annuel : ℚ
  vols_domestiques_km : ℚ
  vols_internationaux_km : ℚ
  montant_achats_annuel : ℚ
  pourcentage_local : ℚ
deriving DecidableEq, Repr

/-- Round a rational to the nearest integer, ties to even.  This models both
Python's built-in `round` and the rounding performed by `f"{x:.0f}"`
formatting. -/
def rndHalfEven (q : ℚ) : ℤ :=
  if 2 * q < 2 * (⌊q⌋ : ℚ) + 1 then ⌊q⌋
  else if 2 * (⌊q⌋ : ℚ) + 1 < 2 * q then ⌊q⌋ + 1
  else if ⌊q⌋ % 2 = 0 then ⌊q⌋ else ⌊q⌋ + 1

/-- Python `round(x, 2)`. -/
def round2 (q : ℚ) : ℚ := (rndHalfEven (q * 100) : ℚ) / 100

/-- Python `round(x, 1)`. -/
def round1 (q : ℚ) : ℚ := (rndHalfEven (q * 10) : ℚ) / 10

/-- Python `round(x, 4)`. -/
def round4 (q : ℚ) : ℚ := (rndHalfEven (q * 10000) : ℚ) / 10000

/-- Numeric value printed by an `f"{x:.0f}"` placeholder, as re-parsed by the
recommendation ranker's regular expression. -/
def fmt0 (q : ℚ) : ℚ := (rndHalfEven q : ℚ)

/-- Emission factor table (carbon_calculator.py lines 94-111; the same
constants are used by `_load_default_factors`, lines 120-135). -/
def emission_factors : List (String × ℚ) :=
  [("electricite_france", 0.0571),
   ("gaz_naturel", 0.227),
   ("essence", 2.80),
   ("gazole", 3.10),
   ("voiture_essence", 0.193),
   ("voiture_diesel", 0.166),
   ("avion_domestique", 0.230),
   ("avion_international", 0.156),
   ("achats_biens", 0.45),
   ("achats_services", 0.32),
   ("transport_reduction", 0.20)]

/-- Factor lookup, `ADEMEDataProcessor.get_factor` (lines 137-139):
`self.emission_factors.get(factor_name, 0.0)`. -/
def get_factor (ft : List (String × ℚ)) (name : String) : ℚ :=
  (ft.lookup name).getD 0

/-- Sector benchmark profile (one value of `_load_sector_benchmarks`,
lines 148-223). -/
structure SectorProfile where
  co2e_per_employee : ℚ
  co2e_per_revenue : ℚ
  percentile_25 : ℚ
  percentile_75 : ℚ
  main_sources : List String
  transport_weight : ℚ
deriving DecidableEq, Repr

def industrieProfile : SectorProfile :=
  ⟨12.5, 0.0045, 8.2, 18.7, ["electricite", "gaz", "achats"], 0.15⟩

def servicesProfile : SectorProfile :=
  ⟨4.2, 0.0028, 2.8, 6.9, ["electricite", "vols_internationaux", "achats"], 0.25⟩

def commerceProfile : SectorProfile :=
  ⟨6.8, 0.0035, 4.1, 9.2, ["electricite", "achats", "vehicules"], 0.30⟩

def constructionProfile : SectorProfile :=
  ⟨15.3, 0.0052, 11.2, 21.4, ["vehicules", "carburants", "achats"], 0.45⟩

def transportProfile : SectorProfile :=
  ⟨18.7, 0.0067, 13.5, 25.8, ["vehicules", "carburants", "vols_domestiques"], 0.70⟩

def logistiqueProfile : SectorProfile :=
  ⟨22.3, 0.0078, 16.8, 29.5, ["vehicules", "carburants", "vols_domestiques"], 0.75⟩

def restaurationProfile : SectorProfile :=
  ⟨8.5, 0.0042, 5.2, 12.1, ["gaz", "electricite", "achats"], 0.10⟩

def technologieProfile : SectorProfile :=
  ⟨3.8, 0.0022, 2.1, 5.9, ["electricite", "vols_internationaux", "achats"], 0.20⟩

def agricultureProfile : SectorProfile :=
  ⟨16.8, 0.0058, 12.3, 23.4, ["carburants", "vehicules", "gaz"], 0.40⟩

/-- Sector benchmark table, `CarbonCalculator._load_sector_benchmarks`
(lines 148-223). -/
def sector_benchmarks : List (String × SectorProfile) :=
  [("industrie", industrieProfile),
   ("services", servicesProfile),
   ("commerce", commerceProfile),
   ("construction", constructionProfile),
   ("transport", transportProfile),
   ("logistique", logistiqueProfile),
   ("restauration", restaurationProfile),
   ("technologie", technologieProfile),
   ("agriculture", agricultureProfile)]

/-- Sector lookup used by `_generate_recommendations` (line 349):
`self.sector_benchmarks.get(data.secteur,
  self.sector_benchmarks.get('logistique', self.sector_benchmarks['services']))`. -/
def recProfile (s : String) : SectorProfile :=
  (sector_benchmarks.lookup s).getD
    ((sector_benchmarks.lookup "logistique").getD servicesProfile)

/-- Sector lookup used by `_analyze_benchmark` (line 537):
`self.sector_benchmarks.get(data.secteur, self.sector_benchmarks['services'])`. -/
def benchProfile (s : String) : SectorProfile :=
  (sector_benchmarks.lookup s).getD servicesProfile

/-- Sector lookup used by `_calculate_advanced_kpis` (line 572), same fallback
as `_analyze_benchmark`. -/
def kpiProfile (s : String) : SectorProfile :=
  (sector_benchmarks.lookup s).getD servicesProfile

/-- Sector lookup used by `_calculate_percentile` (line 671), same fallback
as `_analyze_benchmark`. -/
def pctProfile (s : String) : SectorProfile :=
  (sector_benchmarks.lookup s).getD servicesProfile

/-- `_calculate_scope_1` (lines 268-286): fuel + gas combustion + vehicle
fleet. -/
def calcScope1 (ft : List (String × ℚ)) (d : CompanyData) : ℚ :=
  d.carburants_litres * get_factor ft "essence"
    + d.gaz_kwh * get_factor ft "gaz_naturel"
    + d.vehicules_km_annuel * get_factor ft "voiture_essence"

/-- `_calculate_scope_2` (lines 288-294): electricity consumption. -/
def calcScope2 (ft : List (String × ℚ)) (d : CompanyData) : ℚ :=
  d.electricite_kwh * get_factor ft "electricite_france"

/-- Upstream fuel-and-energy residual added to scope 3 (line 315):
`electricite_kwh * 0.0134 + gaz_kwh * 0.0456`. -/
def upstreamResidual (d : CompanyData) : ℚ :=
  d.electricite_kwh * 0.0134 + d.gaz_kwh * 0.0456

/-- `_calculate_scope_3` (lines 296-319): flights + purchases (with local
sourcing reduction) + upstream residual. -/
def calcScope3 (ft : List (String × ℚ)) (d : CompanyData) : ℚ :=
  d.vols_domestiques_km * get_factor ft "avion_domestique"
    + d.vols_internationaux_km * get_factor ft "avion_international"
    + d.montant_achats_annuel * get_factor ft "achats_biens"
        * (1 - d.pourcentage_local / 100 * get_factor ft "transport_reduction")
    + upstreamResidual d

/-- Category breakdown before rounding (`_calculate_detailed_breakdown`,
lines 321-338), in Python dict insertion order. -/
def rawBreakdown (ft : List (String × ℚ)) (d : CompanyData) : List (String × ℚ) :=
  [("electricite", d.electricite_kwh * get_factor ft "electricite_france"),
   ("gaz", d.gaz_kwh * get_factor ft "gaz_naturel"),
   ("carburants", d.carburants_litres * get_factor ft "essence"),
   ("vehicules", d.vehicules_km_annuel * get_factor ft "voiture_essence"),
   ("vols_domestiques", d.vols_domestiques_km * get_factor ft "avion_domestique"),
   ("vols_internationaux", d.vols_internationaux_km * get_factor ft "avion_international"),
   ("achats", d.montant_achats_annuel * get_factor ft "achats_biens"
       * (1 - d.pourcentage_local / 100 * get_factor ft "transport_reduction"))]

/-- `_calculate_detailed_breakdown` (lines 321-343): every value rounded to
two decimals (line 341). -/
def calcBreakdown (ft : List (String × ℚ)) (d : CompanyData) : List (String × ℚ) :=
  (rawBreakdown ft d).map (fun p => (p.1, round2 p.2))

/-- `_parse_employee_count` (lines 554-565). -/
def parse_employee_count (effectif : String) : ℕ :=
  if effectif = "1-9" then 5
  else if effectif = "10-49" then 25
  else if effectif = "50-249" then 125
  else if effectif = "250+" then 500
  else 25

/-- Body of `_analyze_benchmark` after the sector profile and employee count
have been resolved (lines 540-552), including the zero-employee guard. -/
def benchmarkLabel (sd : SectorProfile) (employees : ℕ) (total : ℚ) : String :=
  if employees = 0 then "Données insuffisantes pour le benchmark"
  else
    let intensity := total / (employees : ℚ)
    if intensity ≤ sd.percentile_25 then "Excellent - Top 25% de votre secteur"
    else if intensity ≤ sd.co2e_per_employee then "Bon - Proche de la moyenne sectorielle"
    else if intensity ≤ sd.percentile_75 then "Moyen - Amélioration possible"
    else "À améliorer - Émissions élevées pour votre secteur"

/-- `_analyze_benchmark` (lines 535-552). -/
def analyze_benchmark (d : CompanyData) (total : ℚ) : String :=
  benchmarkLabel (benchProfile d.secteur) (parse_employee_count d.effectif) total

/-- `_calculate_percentile` (lines 669-680). -/
def calcPercentile (sector : String) (intensity : ℚ) : ℤ :=
  let sd := pctProfile sector
  if intensity ≤ sd.percentile_25 then 25
  else if intensity ≤ sd.co2e_per_employee then 50
  else if intensity ≤ sd.percentile_75 then 75
  else 90

/-- Division as Python performs it: `a / b` raises `ZeroDivisionError` when
`b == 0`. -/
def pydiv (a b : ℚ) : Except String ℚ :=
  if b = 0 then Except.error "ZeroDivisionError: float division by zero"
  else Except.ok (a / b)

/-- A recommendation string produced by `_generate_recommendations`.  We keep
the template identity (`label`, an abbreviation of the fixed French text) and
the one number the engine later reads back out of the string:
`reduitEmbedded = some v` when the text contains `réduit {v:.0f} kgCO₂e`
(which the ranker's regex matches), and `none` for the templates whose text
says `neutralise {..}` or `réduit ~{..}` (which the regex does not match).
The remaining display-only numbers of each template are elided. -/
structure Reco where
  label : String
  reduitEmbedded : Option ℚ
deriving DecidableEq, Repr

/-- `extract_co2_reduction` (lines 527-530): the regex
`réduit (\d+(?:\.\d+)?)\s*kgCO₂e` applied to a recommendation string,
returning 0 on no match. -/
def extractCO2 (r : Reco) : ℚ := r.reduitEmbedded.getD 0

/-- Insert into a descending-by-key list, after any element with an equal or
larger key (so that the enclosing fold is a stable descending sort, as
Python's `sort(key=.., reverse=True)` is). -/
def insertDesc {α : Type} (k : α → ℚ) (x : α) : List α → List α
  | [] => [x]
  | y :: l => if k y < k x then x :: y :: l else y :: insertDesc k x l

/-- Stable descending sort by a rational key: Python's
`sorted(.., key=.., reverse=True)` / `list.sort(key=.., reverse=True)`. -/
def sortDesc {α : Type} (k : α → ℚ) (l : List α) : List α :=
  l.foldl (fun acc x => insertDesc k x acc) []

/-- Recommendations generated for one breakdown category in the main loop of
`_generate_recommendations` (lines 355-499).  `source` is the category name,
`emissions` its (rounded) breakdown value; the `percentage < 5` gate is
applied by the caller. -/
def recsForSource (d : CompanyData) (source : String) (emissions : ℚ) : List Reco :=
  if source = "electricite" ∧ emissions > 0 then
    -- lines 363-378
    if d.secteur ∈ ["industrie", "commerce", "restauration"] then
      [⟨"Optimiser eclairage LED et equipements", some (fmt0 (emissions * 0.30))⟩]
    else
      [⟨"Passer a electricite verte", some (fmt0 emissions)⟩]
  else if source = "vehicules" ∧ emissions > 0 then
    -- lines 381-408
    if d.secteur ∈ ["transport", "logistique", "construction"] then
      [⟨"Optimiser itineraires de livraison", some (fmt0 (emissions * 0.12))⟩]
        ++ (if d.vehicules_km_annuel > 20000 then
              [⟨"Electrifier 30% de la flotte", some (fmt0 (emissions * 0.65 * 0.3))⟩]
            else [])
    else
      [⟨"Encourager covoiturage et teletravail", some (fmt0 (emissions * 0.25))⟩]
  else if source = "carburants" ∧ emissions > 0 then
    -- lines 411-431
    if d.secteur ∈ ["transport", "logistique", "construction", "agriculture"] then
      [⟨"Formation eco-conduite + entretien preventif", some (fmt0 (emissions * 0.15))⟩]
        ++ (if d.carburants_litres > 5000 then
              [⟨"Integrer biocarburants dans la flotte", some (fmt0 (emissions * 0.20))⟩]
            else [])
    else []
  else if source = "gaz" ∧ emissions > 0 then
    -- lines 434-452
    if d.secteur ∈ ["industrie", "restauration", "commerce"] then
      [⟨"Remplacer chaudiere gaz par pompe a chaleur", some (fmt0 (emissions * 0.60))⟩]
    else
      [⟨"Ameliorer isolation batiment", some (fmt0 (emissions * 0.25))⟩]
  else if (source = "vols_domestiques" ∨ source = "vols_internationaux") ∧ emissions > 0 then
    -- lines 455-474; the offset recommendation's text says "neutralise", so
    -- the impact-extraction regex does not match it
    let kmFlights := if source = "vols_domestiques" then d.vols_domestiques_km
                     else d.vols_internationaux_km
    let flightType := if source = "vols_domestiques" then "domestiques" else "internationaux"
    [⟨"Remplacer 30% vols " ++ flightType ++ " par visioconference",
        some (fmt0 (emissions * 0.30))⟩]
      ++ (if kmFlights > 10000 then [⟨"Compenser vols restants", none⟩] else [])
  else if source = "achats" ∧ emissions > 0 then
    -- lines 477-499
    if d.secteur ∈ ["transport", "logistique"] then []
    else
      (if d.pourcentage_local < 60 then
         [⟨"Augmenter achats locaux",
             some (fmt0 (emissions * (min 30 (70 - d.pourcentage_local) / 100) * 0.20))⟩]
       else [])
        ++ (if d.montant_achats_annuel > 100000 then
              [⟨"Evaluer et changer 3 fournisseurs principaux", some (fmt0 (emissions * 0.17))⟩]
            else [])
  else []

/-- Sector-specific strategic recommendations (lines 502-523).  All three
templates print their number as `réduit ~{..}`, which the impact-extraction
regex does not match, hence `none`. -/
def strategicRecs (d : CompanyData) : List Reco :=
  if d.secteur ∈ ["transport", "logistique"] then
    if d.vehicules_km_annuel > 50000 then [⟨"Report modal vers rail/fluvial", none⟩] else []
  else if d.secteur = "restauration" then
    [⟨"Reduire gaspillage alimentaire", none⟩]
  else if d.secteur = "technologie" then
    if d.electricite_kwh > 30000 then [⟨"Optimiser data centers", none⟩] else []
  else []

/-- `_generate_recommendations` (lines 345-533).  `bd` is the rounded
breakdown.  The very first loop iteration computes
`emissions / total_emissions`, so a zero breakdown total raises
`ZeroDivisionError` (the source list is never empty: the breakdown always has
its 7 fixed keys). -/
def generateRecs (d : CompanyData) (bd : List (String × ℚ)) : Except String (List Reco) :=
  let total := (bd.map Prod.snd).sum
  if total = 0 then Except.error "ZeroDivisionError: float division by zero"
  else
    let top5 := (sortDesc Prod.snd bd).take 5
    let fromSources := top5.flatMap (fun p =>
      if p.2 / total * 100 < 5 then [] else recsForSource d p.1 p.2)
    Except.ok ((sortDesc extractCO2 (fromSources ++ strategicRecs d)).take 8)

/-- One month of the monthly distribution (lines 626-631). -/
structure MonthEntry where
  month : ℕ
  emissions : ℚ
  factor : ℚ
deriving DecidableEq, Repr

/-- Seasonal factors of the monthly distribution (line 625). -/
def seasonal_factors : List ℚ :=
  [1.2, 1.1, 1.0, 0.9, 0.8, 0.7, 0.7, 0.8, 0.9, 1.0, 1.1, 1.2]

/-- Monthly distribution (lines 624-631): `(total/12) * factor` per month,
months numbered from 1. -/
def monthlyBreakdown (total : ℚ) : List MonthEntry :=
  (List.enumFrom 1 seasonal_factors).map (fun p => ⟨p.1, total / 12 * p.2, p.2⟩)

/-- Sustainability grade bands (lines 577-588). -/
def sustainabilityGrade (score : ℚ) : String :=
  if 90 ≤ score then "A+"
  else if 80 ≤ score then "A"
  else if 70 ≤ score then "B"
  else if 60 ≤ score then "C"
  else if 50 ≤ score then "D"
  else "F"

/-- Reduction-potential multiplier per category (lines 591-602). -/
def reductionMultiplier (category : String) : ℚ :=
  if category = "electricite" then 0.30
  else if category = "vehicules" then 0.50
  else if category = "vols_domestiques" ∨ category = "vols_internationaux" then 0.25
  else if category = "achats" then 0.20
  else 0.15

/-- Reduction potential over the (rounded) breakdown (lines 591-602),
before the final rounding. -/
def reductionPotential (bd : List (String × ℚ)) : List (String × ℚ) :=
  bd.map (fun p => (p.1, p.2 * reductionMultiplier p.1))

/-- Python `max(pairs, key=snd)[0]`: first key attaining the maximal value
(used for `ai_insights`, lines 651-652; the lists it is applied to always
have the 7 fixed breakdown keys, so the empty default is unreachable). -/
def maxBySnd (l : List (String × ℚ)) : String :=
  match l with
  | [] => ""
  | x :: xs => (xs.foldl (fun best p => if best.2 < p.2 then p else best) x).1

/-- Value looked up by `breakdown.get('vehicules', 0)` (line 653). -/
def bdGet (bd : List (String × ℚ)) (k : String) : ℚ := (bd.lookup k).getD 0

/-- Advanced-KPI block built once the efficiency ratio is known
(lines 571-667, everything after the `efficiency_ratio` division). -/
structure KPIs where
  carbon_efficiency_score : ℚ
  reduction_potential : List (String × ℚ)
  trajectory_2030 : List (String × ℚ)
  sustainability_grade : String
  cost_of_carbon : ℚ
  equivalent_metrics : List (String × ℚ)
  monthly_breakdown : List MonthEntry
  peer_comparison : List (String × ℚ)
  certification_readiness : List (String × Bool)
  ai_insights : List (String × String)
deriving DecidableEq, Repr

/-- KPI block of `_calculate_advanced_kpis` built once the efficiency ratio
`er` is known (lines 574-667).  `total` is the unrounded scope total, `bd`
the rounded breakdown.  The returned fields carry the roundings of
lines 656-667 (`monthly_breakdown` is passed through unrounded, line 663). -/
def advancedKpisBody (d : CompanyData) (total : ℚ) (bd : List (String × ℚ))
    (er : ℚ) : KPIs :=
  let employees := parse_employee_count d.effectif
  let sector_avg := kpiProfile d.secteur
  let score := min 100 (max 0 (er * 50))
  let rp := reductionPotential bd
  let rpSum := (rp.map Prod.snd).sum
  let traj : List (String × ℚ) :=
    [("current", total),
     ("target_2030", total * 0.45),
     ("annual_reduction_needed", total * 0.055),
     ("feasible_with_actions", rpSum)]
  let equiv : List (String × ℚ) :=
    [("trees_to_plant", total * 40),
     ("cars_off_road", total / 4.6),
     ("homes_energy_year", total / 6.8),
     ("flights_paris_ny", total / 1.8)]
  let peer : List (String × ℚ) :=
    [("percentile", (calcPercentile d.secteur (total / (employees : ℚ)) : ℚ)),
     ("sector_average", sector_avg.co2e_per_employee * (employees : ℚ)),
     ("best_in_class", sector_avg.percentile_25 * (employees : ℚ)),
     ("improvement_needed", max 0 (total - sector_avg.percentile_25 * (employees : ℚ)))]
  let cert : List (String × Bool) :=
    [("iso_14001", decide (70 ≤ score)),
     ("b_corp", decide (80 ≤ score) && decide (50 ≤ d.pourcentage_local)),
     ("carbon_neutral", decide (total * 0.8 ≤ rpSum)),
     ("science_based_targets", decide (total * 0.45 ≤ rpSum))]
  let ai : List (String × String) :=
    [("primary_focus", maxBySnd bd),
     ("quick_win", maxBySnd rp),
     ("long_term_strategy",
        if total * 0.2 < bdGet bd "vehicules" then "electrification"
        else "energy_efficiency")]
  { carbon_efficiency_score := round1 score
    reduction_potential := rp.map (fun p => (p.1, round2 p.2))
    trajectory_2030 := traj.map (fun p => (p.1, round2 p.2))
    sustainability_grade := sustainabilityGrade score
    cost_of_carbon := round2 (total * 100)
    equivalent_metrics := equiv.map (fun p => (p.1, round1 p.2))
    monthly_breakdown := monthlyBreakdown total
    peer_comparison := peer.map (fun p => (p.1, round2 p.2))
    certification_readiness := cert
    ai_insights := ai }

/-- `_calculate_advanced_kpis` (lines 567-667).  `total` is the unrounded
scope total, `bd` the rounded breakdown.  The Python line
`efficiency_ratio = sector_avg[..] / (total / employees) if employees > 0 else 0`
divides by `total / employees`, raising `ZeroDivisionError` when the total is
zero (the employee count from `_parse_employee_count` is never zero).  No
other division in the function can have a zero denominator. -/
def advancedKpis (d : CompanyData) (total : ℚ) (bd : List (String × ℚ)) :
    Except String KPIs :=
  match (if 0 < parse_employee_count d.effectif then
           pydiv (kpiProfile d.secteur).co2e_per_employee
             (total / (parse_employee_count d.effectif : ℚ))
         else Except.ok 0) with
  | Except.error e => Except.error e
  | Except.ok er => Except.ok (advancedKpisBody d total bd er)

/-- Complete calculation result (`EmissionResult`, lines 49-72; the advanced
KPI fields spread by `**advanced_kpis` at line 265 are grouped under
`kpis`). -/
structure EmissionResult where
  total_co2e : ℚ
  scope_1 : ℚ
  scope_2 : ℚ
  scope_3 : ℚ
  breakdown : List (String × ℚ)
  recommendations : List Reco
  benchmark_position : String
  intensity_per_employee : ℚ
  intensity_per_revenue : Option ℚ
  kpis : KPIs
deriving DecidableEq, Repr

/-- `calculate_emissions` (lines 225-266).  Sub-stages run in source order;
`_generate_recommendations` is called before `_calculate_advanced_kpis`, so
its `ZeroDivisionError` surfaces first.  `intensity_per_revenue` follows
Python truthiness twice: a missing or zero revenue yields `None`, and a zero
computed intensity is also replaced by `None` at line 264. -/
def calculate_emissions (ft : List (String × ℚ)) (d : CompanyData) :
    Except String EmissionResult :=
  match generateRecs d (calcBreakdown ft d) with
  | Except.error e => Except.error e
  | Except.ok recs =>
    match advancedKpis d (calcScope1 ft d + calcScope2 ft d + calcScope3 ft d)
        (calcBreakdown ft d) with
    | Except.error e => Except.error e
    | Except.ok k =>
      Except.ok
        { total_co2e := round2 (calcScope1 ft d + calcScope2 ft d + calcScope3 ft d)
          scope_1 := round2 (calcScope1 ft d)
          scope_2 := round2 (calcScope2 ft d)
          scope_3 := round2 (calcScope3 ft d)
          breakdown := calcBreakdown ft d
          recommendations := recs
          benchmark_position := analyze_benchmark d
            (calcScope1 ft d + calcScope2 ft d + calcScope3 ft d)
          intensity_per_employee := round2
            (if 0 < parse_employee_count d.effectif then
               (calcScope1 ft d + calcScope2 ft d + calcScope3 ft d)
                 / (parse_employee_count d.effectif : ℚ)
             else 0)
          intensity_per_revenue :=
            match d.chiffre_affaires with
            | none => none
            | some ca =>
              if ca = 0 then none
              else if (calcScope1 ft d + calcScope2 ft d + calcScope3 ft d) / ca * 1000 = 0
                then none
                else some (round4
                  ((calcScope1 ft d + calcScope2 ft d + calcScope3 ft d) / ca * 1000))
          kpis := k }

/-- True exactly on `Except.ok` results. -/
def okB {α : Type} : Except String α → Bool
  | Except.ok _ => true
  | Except.error _ => false

/-- Concrete input of the spec's worked example: 10000 kWh of electricity,
everything else zero, sector `services`, employee band `10-49`. -/
def exampleServices : CompanyData :=
  { nom := "Example"
    secteur := "services"
    effectif := "10-49"
    chiffre_affaires := none
    localisation := "Paris"
    electricite_kwh := 10000
    gaz_kwh := 0
    carburants_litres := 0
    vehicules_km_annuel := 0
    vols_domestiques_km := 0
    vols_internationaux_km := 0
    montant_achats_annuel := 0
    pourcentage_local := 0 }

/-- The all-zero company: every quantity 0, known sector and band. -/
def zeroCompany : CompanyData :=
  { exampleServices with electricite_kwh := 0 }

/-- A company whose only activity is 20000 km of domestic and 20000 km of
international flights. -/
def volsOnly : CompanyData :=
  { zeroCompany with vols_domestiques_km := 20000, vols_internationaux_km := 20000 }

/-! ## Helper lemmas about the rounding model -/

theorem rhe_cases (q : ℚ) : rndHalfEven q = ⌊q⌋ ∨ rndHalfEven q = ⌊q⌋ + 1 := by
  unfold rndHalfEven
  split_ifs <;> simp

theorem rhe_abs (q : ℚ) : |(rndHalfEven q : ℚ) - q| ≤ 1/2 := by
  have h0 : (⌊q⌋ : ℚ) ≤ q := Int.floor_le q
  have h1 : q < (⌊q⌋ : ℚ) + 1 := Int.lt_floor_add_one q
  unfold rndHalfEven
  split_ifs with ha hb hc
  · rw [abs_sub_comm, abs_of_nonneg (by linarith)]
    linarith
  · rw [abs_of_nonneg (by push_cast; linarith)]
    push_cast
    linarith
  · rw [abs_sub_comm, abs_of_nonneg (by linarith)]
    linarith
  · rw [abs_of_nonneg (by push_cast; linarith)]
    push_cast
    linarith

theorem rhe_nonneg {q : ℚ} (h : 0 ≤ q) : 0 ≤ rndHalfEven q := by
  have hf : 0 ≤ ⌊q⌋ := Int.floor_nonneg.mpr h
  rcases rhe_cases q with hc | hc <;> omega

theorem rhe_le_int {q : ℚ} {n : ℤ} (h : q ≤ (n : ℚ)) : rndHalfEven q ≤ n := by
  have hfl : ⌊q⌋ ≤ n := by
    have := Int.floor_le_floor h
    rwa [Int.floor_intCast] at this
  unfold rndHalfEven
  split_ifs with ha hb hc
  · exact hfl
  · have hq : (⌊q⌋ : ℚ) + 1/2 ≤ q := by linarith
    have hlt : (⌊q⌋ : ℚ) < (n : ℚ) := by linarith
    have : ⌊q⌋ < n := by exact_mod_cast hlt
    omega
  · exact hfl
  · have hq : (⌊q⌋ : ℚ) + 1/2 ≤ q := by linarith
    have hlt : (⌊q⌋ : ℚ) < (n : ℚ) := by linarith
    have : ⌊q⌋ < n := by exact_mod_cast hlt
    omega

theorem round2_abs (q : ℚ) : |round2 q - q| ≤ 1/200 := by
  have h := rhe_abs (q * 100)
  unfold round2
  rw [show (rndHalfEven (q * 100) : ℚ) / 100 - q
        = ((rndHalfEven (q * 100) : ℚ) - q * 100) / 100 by ring,
      abs_div]
  rw [show |(100 : ℚ)| = 100 by norm_num]
  linarith

theorem round2_nonneg {q : ℚ} (h : 0 ≤ q) : 0 ≤ round2 q := by
  unfold round2
  have : (0 : ℚ) ≤ (rndHalfEven (q * 100) : ℚ) := by
    exact_mod_cast rhe_nonneg (by positivity)
  positivity

theorem round2_zero : round2 0 = 0 := by norm_num [round2, rndHalfEven]

theorem round1_nonneg {q : ℚ} (h : 0 ≤ q) : 0 ≤ round1 q := by
  unfold round1
  have : (0 : ℚ) ≤ (rndHalfEven (q * 10) : ℚ) := by
    exact_mod_cast rhe_nonneg (by positivity)
  positivity

theorem round1_le_100 {q : ℚ} (h : q ≤ 100) : round1 q ≤ 100 := by
  unfold round1
  have h10 : q * 10 ≤ ((1000 : ℤ) : ℚ) := by push_cast; linarith
  have : (rndHalfEven (q * 10) : ℚ) ≤ ((1000 : ℤ) : ℚ) := by
    exact_mod_cast rhe_le_int h10
  push_cast at this
  linarith

theorem parse_pos (s : String) : 0 < parse_employee_count s := by
  unfold parse_employee_count
  split_ifs <;> norm_num

/-! ## Helper lemmas about the descending sort -/

theorem mem_insertDesc {α : Type} (k : α → ℚ) (x : α) :
    ∀ (l : List α) (y : α), y ∈ insertDesc k x l → y = x ∨ y ∈ l := by
  intro l
  induction l with
  | nil =>
    intro y h
    simp only [insertDesc, List.mem_singleton] at h
    exact Or.inl h
  | cons z l ih =>
    intro y h
    simp only [insertDesc] at h
    by_cases hc : k z < k x
    · rw [if_pos hc] at h
      rcases List.mem_cons.mp h with h | h
      · exact Or.inl h
      · exact Or.inr h
    · rw [if_neg hc] at h
      rcases List.mem_cons.mp h with h | h
      · exact Or.inr (by simp [h])
      · rcases ih y h with h | h
        · exact Or.inl h
        · exact Or.inr (List.mem_cons_of_mem _ h)

theorem sorted_insertDesc {α : Type} (k : α → ℚ) (x : α) :
    ∀ {l : List α}, l.Sorted (fun a b => k b ≤ k a) →
      (insertDesc k x l).Sorted (fun a b => k b ≤ k a) := by
  intro l
  induction l with
  | nil =>
    intro _
    simp [insertDesc]
  | cons z l ih =>
    intro h
    rw [List.sorted_cons] at h
    obtain ⟨hz, hl⟩ := h
    simp only [insertDesc]
    by_cases hc : k z < k x
    · rw [if_pos hc, List.sorted_cons]
      refine ⟨?_, List.sorted_cons.mpr ⟨hz, hl⟩⟩
      intro b hb
      rcases List.mem_cons.mp hb with rfl | hb
      · exact le_of_lt hc
      · exact le_trans (hz b hb) (le_of_lt hc)
    · rw [if_neg hc, List.sorted_cons]
      refine ⟨?_, ih hl⟩
      intro b hb
      rcases mem_insertDesc k x l b hb with rfl | hb
      · exact not_lt.mp hc
      · exact hz b hb

theorem sorted_sortDesc_aux {α : Type} (k : α → ℚ) :
    ∀ (l acc : List α), acc.Sorted (fun a b => k b ≤ k a) →
      (l.foldl (fun acc x => insertDesc k x acc) acc).Sorted (fun a b => k b ≤ k a) := by
  intro l
  induction l with
  | nil =>
    intro acc h
    simpa using h
  | cons x l ih =>
    intro acc h
    exact ih _ (sorted_insertDesc k x h)

theorem sorted_sortDesc {α : Type} (k : α → ℚ) (l : List α) :
    (sortDesc k l).Sorted (fun a b => k b ≤ k a) :=
  sorted_sortDesc_aux k l [] (by simp)

/-! ## Helper lemmas about the fallible stages -/

theorem advancedKpis_ne (d : CompanyData) (total : ℚ) (bd : List (String × ℚ))
    (h : total ≠ 0) :
    advancedKpis d total bd =
      Except.ok (advancedKpisBody d total bd
        ((kpiProfile d.secteur).co2e_per_employee
          / (total / (parse_employee_count d.effectif : ℚ)))) := by
  have hp := parse_pos d.effectif
  have hz : total / (parse_employee_count d.effectif : ℚ) ≠ 0 :=
    div_ne_zero h (Nat.cast_ne_zero.mpr hp.ne')
  simp only [advancedKpis, if_pos hp, pydiv, if_neg hz]

theorem advancedKpis_ok {d : CompanyData} {total : ℚ} {bd : List (String × ℚ)}
    {k : KPIs} (h : advancedKpis d total bd = Except.ok k) :
    k = advancedKpisBody d total bd
          ((kpiProfile d.secteur).co2e_per_employee
            / (total / (parse_employee_count d.effectif : ℚ))) := by
  have hp := parse_pos d.effectif
  simp only [advancedKpis, if_pos hp, pydiv] at h
  by_cases hz : total / (parse_employee_count d.effectif : ℚ) = 0
  · rw [if_pos hz] at h
    exact absurd h (by simp)
  · rw [if_neg hz] at h
    injection h with h
    exact h.symm

theorem generateRecs_ne (d : CompanyData) (bd : List (String × ℚ))
    (h : (bd.map Prod.snd).sum ≠ 0) :
    generateRecs d bd =
      Except.ok ((sortDesc extractCO2
        ((((sortDesc Prod.snd bd).take 5).flatMap fun p =>
            if p.2 / (bd.map Prod.snd).sum * 100 < 5 then []
            else recsForSource d p.1 p.2)
          ++ strategicRecs d)).take 8) := by
  simp only [generateRecs, if_neg h]

/-! ## Evaluated factor lookups -/

theorem gf_electricite : get_factor emission_factors "electricite_france" = 0.0571 := rfl
theorem gf_gaz : get_factor emission_factors "gaz_naturel" = 0.227 := rfl
theorem gf_essence : get_factor emission_factors "essence" = 2.80 := rfl
theorem gf_voiture : get_factor emission_factors "voiture_essence" = 0.193 := rfl
theorem gf_avion_dom : get_factor emission_factors "avion_domestique" = 0.230 := rfl
theorem gf_avion_int : get_factor emission_factors "avion_international" = 0.156 := rfl
theorem gf_achats : get_factor emission_factors "achats_biens" = 0.45 := rfl
theorem gf_transp_red : get_factor emission_factors "transport_reduction" = 0.20 := rfl

/-- Breakdown sum at the worked example: only the electricity category is
non-zero (571 kgCO2e). -/
theorem bd_example_sum :
    ((calcBreakdown emission_factors exampleServices).map Prod.snd).sum = 571 := by
  norm_num [calcBreakdown, rawBreakdown, exampleServices, gf_electricite, gf_gaz,
    gf_essence, gf_voiture, gf_avion_dom, gf_avion_int, gf_achats, gf_transp_red,
    round2, rndHalfEven]

/-- Raw scope total at the worked example: 571 + 134 = 705 kgCO2e. -/
theorem total_example :
    calcScope1 emission_factors exampleServices + calcScope2 emission_factors exampleServices
      + calcScope3 emission_factors exampleServices = 705 := by
  norm_num [calcScope1, calcScope2, calcScope3, upstreamResidual, exampleServices,
    gf_electricite, gf_gaz, gf_essence, gf_voiture, gf_avion_dom, gf_avion_int,
    gf_achats, gf_transp_red]

/-- Scope fields of a successful calculation: each is the two-decimal
rounding of the corresponding unrounded scope value, and the total field is
the rounding of the unrounded sum. -/
theorem calculate_emissions_scopes (ft : List (String × ℚ)) (d : CompanyData)
    (h1 : ((calcBreakdown ft d).map Prod.snd).sum ≠ 0)
    (h2 : calcScope1 ft d + calcScope2 ft d + calcScope3 ft d ≠ 0) :
    (calculate_emissions ft d).map
        (fun r => (r.total_co2e, r.scope_1, r.scope_2, r.scope_3))
      = Except.ok (round2 (calcScope1 ft d + calcScope2 ft d + calcScope3 ft d),
          round2 (calcScope1 ft d), round2 (calcScope2 ft d), round2 (calcScope3 ft d)) := by
  unfold calculate_emissions
  rw [generateRecs_ne _ _ h1, advancedKpis_ne _ _ _ h2]
  rfl

/-- The calculation succeeds whenever the two quantities Python divides by —
the rounded breakdown sum and the unrounded scope total — are non-zero. -/
theorem calculate_emissions_isOk (ft : List (String × ℚ)) (d : CompanyData)
    (h1 : ((calcBreakdown ft d).map Prod.snd).sum ≠ 0)
    (h2 : calcScope1 ft d + calcScope2 ft d + calcScope3 ft d ≠ 0) :
    okB (calculate_emissions ft d) = true := by
  unfold calculate_emissions
  rw [generateRecs_ne _ _ h1, advancedKpis_ne _ _ _ h2]
  rfl

/-! ## Claim theorems -/

/-- Claim C7: on the input with electricity = 10000 kWh, all other quantities
zero, sector `services` and band `10-49`, the engine returns
scope2 = 10000 × 0.0571 = 571.0 kgCO2e, scope1 = 0, scope3 equal to the
upstream residual only (134 kgCO2e), and total = 705; in general
scope2 = electricity_kWh times the electricity emission factor. -/
theorem C7_example :
    (calculate_emissions emission_factors exampleServices).map
        (fun r => (r.total_co2e, r.scope_1, r.scope_2, r.scope_3))
      = Except.ok (705, 0, 571, 134)
    ∧ calcScope2 emission_factors exampleServices = 10000 * 0.0571
    ∧ calcScope3 emission_factors exampleServices = upstreamResidual exampleServices
    ∧ ∀ (ft : List (String × ℚ)) (d : CompanyData),
        calcScope2 ft d = d.electricite_kwh * get_factor ft "electricite_france" := by
  refine ⟨?_, ?_, ?_, fun ft d => rfl⟩
  · have h1 : ((calcBreakdown emission_factors exampleServices).map Prod.snd).sum ≠ 0 := by
      rw [bd_example_sum]; norm_num
    have h2 : calcScope1 emission_factors exampleServices
        + calcScope2 emission_factors exampleServices
        + calcScope3 emission_factors exampleServices ≠ 0 := by
      rw [total_example]; norm_num
    rw [calculate_emissions_scopes _ _ h1 h2]
    norm_num [calcScope1, calcScope2, calcScope3, upstreamResidual, exampleServices,
      gf_electricite, gf_gaz, gf_essence, gf_voiture, gf_avion_dom, gf_avion_int,
      gf_achats, gf_transp_red, round2, rndHalfEven]
  · norm_num [calcScope2, exampleServices, gf_electricite]
  · norm_num [calcScope3, upstreamResidual, exampleServices, gf_avion_dom, gf_avion_int,
      gf_achats, gf_transp_red]

/-- Claim C8: the engine is deterministic — two calls on identical company
data and identical factor tables produce identical results in every field
(the benchmark table is a fixed constant of the module). -/
theorem C8_deterministic (ft1 ft2 : List (String × ℚ)) (d1 d2 : CompanyData)
    (hft : ft1 = ft2) (hd : d1 = d2) :
    calculate_emissions ft1 d1 = calculate_emissions ft2 d2 := by
  subst hft
  subst hd
  rfl

theorem C8_deterministic_witness :
    calculate_emissions emission_factors exampleServices
      = calculate_emissions emission_factors exampleServices :=
  C8_deterministic emission_factors emission_factors exampleServices exampleServices rfl rfl

/-- Claim C9: employee count is resolved by the fixed table 1-9 → 5,
10-49 → 25, 50-249 → 125, 250+ → 500 with default 25 for any other string,
and a zero employee count makes the benchmark analyzer return the explicit
insufficient-data label instead of dividing. -/
theorem C9_employee_bands :
    parse_employee_count "1-9" = 5
    ∧ parse_employee_count "10-49" = 25
    ∧ parse_employee_count "50-249" = 125
    ∧ parse_employee_count "250+" = 500
    ∧ (∀ s : String, s ≠ "1-9" → s ≠ "10-49" → s ≠ "50-249" → s ≠ "250+" →
        parse_employee_count s = 25)
    ∧ (∀ (sd : SectorProfile) (total : ℚ),
        benchmarkLabel sd 0 total = "Données insuffisantes pour le benchmark")
    ∧ (∀ (d : CompanyData) (total : ℚ),
        analyze_benchmark d total
          = benchmarkLabel (benchProfile d.secteur) (parse_employee_count d.effectif) total) := by
  refine ⟨rfl, rfl, rfl, rfl, ?_, ?_, fun d total => rfl⟩
  · intro s h1 h2 h3 h4
    simp [parse_employee_count, h1, h2, h3, h4]
  · intro sd total
    simp [benchmarkLabel]

theorem C9_employee_bands_witness :
    parse_employee_count "autre" = 25
      ∧ benchmarkLabel servicesProfile 0 42 = "Données insuffisantes pour le benchmark" :=
  ⟨C9_employee_bands.2.2.2.2.1 "autre" (by decide) (by decide) (by decide) (by decide),
   C9_employee_bands.2.2.2.2.2.1 servicesProfile 42⟩

/-- Claim C10: for a sector absent from the benchmark table, the
recommendation ranker falls back to the `logistique` profile while the
benchmark analyzer, KPI synthesizer and percentile computation fall back to
the `services` profile, and those two profiles differ. -/
theorem C10_sector_fallbacks (s : String) (h : sector_benchmarks.lookup s = none) :
    recProfile s = logistiqueProfile
    ∧ benchProfile s = servicesProfile
    ∧ kpiProfile s = servicesProfile
    ∧ pctProfile s = servicesProfile
    ∧ logistiqueProfile ≠ servicesProfile := by
  refine ⟨?_, ?_, ?_, ?_, ?_⟩
  · rw [recProfile, h]; rfl
  · rw [benchProfile, h]; rfl
  · rw [kpiProfile, h]; rfl
  · rw [pctProfile, h]; rfl
  · intro hEq
    have := congrArg SectorProfile.co2e_per_employee hEq
    norm_num [logistiqueProfile, servicesProfile] at this

/-- Company with 5 kWh of electricity and nothing else. -/
def elecSmall : CompanyData := { zeroCompany with electricite_kwh := 5 }

/-- Company with 1 kWh of electricity and nothing else. -/
def elecOne : CompanyData := { zeroCompany with electricite_kwh := 1 }

/-- Claim C5 counterexample: with 5 kWh of electricity the returned fields
are total = 0.35 but scope_1 + scope_2 + scope_3 = 0 + 0.29 + 0.07 = 0.36,
so the total field does not equal the sum of the rounded scope fields. -/
theorem C5_counterexample :
    (calculate_emissions emission_factors elecSmall).map
        (fun r => (r.total_co2e, r.scope_1, r.scope_2, r.scope_3))
      = Except.ok (0.35, 0, 0.29, 0.07)
    ∧ (0.35 : ℚ) ≠ 0 + 0.29 + 0.07 := by
  constructor
  · have h1 : ((calcBreakdown emission_factors elecSmall).map Prod.snd).sum ≠ 0 := by
      norm_num [calcBreakdown, rawBreakdown, elecSmall, zeroCompany, exampleServices,
        gf_electricite, gf_gaz, gf_essence, gf_voiture, gf_avion_dom, gf_avion_int,
        gf_achats, gf_transp_red, round2, rndHalfEven]
    have h2 : calcScope1 emission_factors elecSmall + calcScope2 emission_factors elecSmall
        + calcScope3 emission_factors elecSmall ≠ 0 := by
      norm_num [calcScope1, calcScope2, calcScope3, upstreamResidual, elecSmall,
        zeroCompany, exampleServices, gf_electricite, gf_gaz, gf_essence, gf_voiture,
        gf_avion_dom, gf_avion_int, gf_achats, gf_transp_red]
    rw [calculate_emissions_scopes _ _ h1 h2]
    norm_num [calcScope1, calcScope2, calcScope3, upstreamResidual, elecSmall,
      zeroCompany, exampleServices, gf_electricite, gf_gaz, gf_essence, gf_voiture,
      gf_avion_dom, gf_avion_int, gf_achats, gf_transp_red, round2, rndHalfEven]
  · norm_num

/-- Claim C5 as amended: the total field is the two-decimal rounding of the
unrounded scope sum, and it can differ from the sum of the three rounded
scope fields by at most 0.02 (four half-cent roundings), not arbitrarily. -/
theorem C5_total (ft : List (String × ℚ)) (d : CompanyData)
    (h : okB (calculate_emissions ft d) = true) :
    (calculate_emissions ft d).map
        (fun r => (r.total_co2e, r.scope_1, r.scope_2, r.scope_3))
      = Except.ok (round2 (calcScope1 ft d + calcScope2 ft d + calcScope3 ft d),
          round2 (calcScope1 ft d), round2 (calcScope2 ft d), round2 (calcScope3 ft d))
    ∧ |round2 (calcScope1 ft d + calcScope2 ft d + calcScope3 ft d)
        - (round2 (calcScope1 ft d) + round2 (calcScope2 ft d) + round2 (calcScope3 ft d))|
      ≤ 1/50 := by
  constructor
  · cases hr : generateRecs d (calcBreakdown ft d) with
    | error e =>
      unfold calculate_emissions at h
      rw [hr] at h
      exact absurd h (by simp [okB])
    | ok recs =>
      cases hk : advancedKpis d (calcScope1 ft d + calcScope2 ft d + calcScope3 ft d)
          (calcBreakdown ft d) with
      | error e =>
        unfold calculate_emissions at h
        rw [hr, hk] at h
        exact absurd h (by simp [okB])
      | ok k =>
        unfold calculate_emissions
        rw [hr, hk]
        rfl
  · have b1 := abs_le.mp (round2_abs (calcScope1 ft d))
    have b2 := abs_le.mp (round2_abs (calcScope2 ft d))
    have b3 := abs_le.mp (round2_abs (calcScope3 ft d))
    have bt := abs_le.mp (round2_abs (calcScope1 ft d + calcScope2 ft d + calcScope3 ft d))
    rw [abs_le]
    constructor <;> linarith [b1.1, b1.2, b2.1, b2.2, b3.1, b3.2, bt.1, bt.2]

theorem C5_total_witness :
    (calculate_emissions emission_factors exampleServices).map
        (fun r => (r.total_co2e, r.scope_1, r.scope_2, r.scope_3))
      = Except.ok (round2 (calcScope1 emission_factors exampleServices
            + calcScope2 emission_factors exampleServices
            + calcScope3 emission_factors exampleServices),
          round2 (calcScope1 emission_factors exampleServices),
          round2 (calcScope2 emission_factors exampleServices),
          round2 (calcScope3 emission_factors exampleServices))
    ∧ |round2 (calcScope1 emission_factors exampleServices
          + calcScope2 emission_factors exampleServices
          + calcScope3 emission_factors exampleServices)
        - (round2 (calcScope1 emission_factors exampleServices)
            + round2 (calcScope2 emission_factors exampleServices)
            + round2 (calcScope3 emission_factors exampleServices))|
      ≤ 1/50 :=
  C5_total emission_factors exampleServices
    (calculate_emissions_isOk emission_factors exampleServices
      (by rw [bd_example_sum]; norm_num)
      (by rw [total_example]; norm_num))

/-- Claim C6 counterexample: with 1 kWh of electricity the unrounded scope
total minus the breakdown sum is 0.0105, while the upstream residual is
0.0134 — the gap is not exactly the residual, because the breakdown values
are rounded to two decimals. -/
theorem C6_counterexample :
    calcScope1 emission_factors elecOne + calcScope2 emission_factors elecOne
        + calcScope3 emission_factors elecOne
      - ((calcBreakdown emission_factors elecOne).map Prod.snd).sum = 0.0105
    ∧ upstreamResidual elecOne = 0.0134
    ∧ (0.0105 : ℚ) ≠ 0.0134 := by
  refine ⟨?_, ?_, by norm_num⟩
  · norm_num [calcScope1, calcScope2, calcScope3, upstreamResidual, calcBreakdown,
      rawBreakdown, elecOne, zeroCompany, exampleServices, gf_electricite, gf_gaz,
      gf_essence, gf_voiture, gf_avion_dom, gf_avion_int, gf_achats, gf_transp_red,
      round2, rndHalfEven]
  · norm_num [upstreamResidual, elecOne, zeroCompany, exampleServices]

/-- Claim C6 as amended: every breakdown value is non-negative, and the
difference between the unrounded scope total and the breakdown sum equals
the upstream residual up to the rounding of the seven breakdown categories
(at most 7 × 0.005 = 0.035), never unbounded drift. -/
theorem C6_breakdown (d : CompanyData)
    (he : 0 ≤ d.electricite_kwh) (hg : 0 ≤ d.gaz_kwh) (hc : 0 ≤ d.carburants_litres)
    (hv : 0 ≤ d.vehicules_km_annuel) (hfd : 0 ≤ d.vols_domestiques_km)
    (hfi : 0 ≤ d.vols_internationaux_km) (hm : 0 ≤ d.montant_achats_annuel)
    (hl0 : 0 ≤ d.pourcentage_local) (hl1 : d.pourcentage_local ≤ 100) :
    ((calcBreakdown emission_factors d).all (fun p => decide (0 ≤ p.2))) = true
    ∧ |(calcScope1 emission_factors d + calcScope2 emission_factors d
          + calcScope3 emission_factors d
          - ((calcBreakdown emission_factors d).map Prod.snd).sum)
        - upstreamResidual d| ≤ 7/200 := by
  have hachat : (0 : ℚ) ≤ d.montant_achats_annuel * 0.45
      * (1 - d.pourcentage_local / 100 * 0.20) :=
    mul_nonneg (mul_nonneg hm (by norm_num)) (by linarith)
  constructor
  · simp only [calcBreakdown, rawBreakdown, gf_electricite, gf_gaz, gf_essence,
      gf_voiture, gf_avion_dom, gf_avion_int, gf_achats, gf_transp_red,
      List.all_cons, List.all_nil, List.map_cons, Bool.and_eq_true, decide_eq_true_eq]
    refine ⟨?_, ?_, ?_, ?_, ?_, ?_, ?_, rfl⟩
    · exact round2_nonneg (mul_nonneg he (by norm_num))
    · exact round2_nonneg (mul_nonneg hg (by norm_num))
    · exact round2_nonneg (mul_nonneg hc (by norm_num))
    · exact round2_nonneg (mul_nonneg hv (by norm_num))
    · exact round2_nonneg (mul_nonneg hfd (by norm_num))
    · exact round2_nonneg (mul_nonneg hfi (by norm_num))
    · exact round2_nonneg hachat
  · have hS : calcScope1 emission_factors d + calcScope2 emission_factors d
        + calcScope3 emission_factors d
        = d.electricite_kwh * 0.0571 + d.gaz_kwh * 0.227 + d.carburants_litres * 2.80
          + d.vehicules_km_annuel * 0.193 + d.vols_domestiques_km * 0.230
          + d.vols_internationaux_km * 0.156
          + d.montant_achats_annuel * 0.45 * (1 - d.pourcentage_local / 100 * 0.20)
          + upstreamResidual d := by
      simp only [calcScope1, calcScope2, calcScope3, gf_electricite, gf_gaz, gf_essence,
        gf_voiture, gf_avion_dom, gf_avion_int, gf_achats, gf_transp_red]
      ring
    have hBD : ((calcBreakdown emission_factors d).map Prod.snd).sum
        = round2 (d.electricite_kwh * 0.0571) + round2 (d.gaz_kwh * 0.227)
          + round2 (d.carburants_litres * 2.80) + round2 (d.vehicules_km_annuel * 0.193)
          + round2 (d.vols_domestiques_km * 0.230)
          + round2 (d.vols_internationaux_km * 0.156)
          + round2 (d.montant_achats_annuel * 0.45
              * (1 - d.pourcentage_local / 100 * 0.20)) := by
      simp only [calcBreakdown, rawBreakdown, gf_electricite, gf_gaz, gf_essence,
        gf_voiture, gf_avion_dom, gf_avion_int, gf_achats, gf_transp_red,
        List.map_cons, List.map_nil, List.sum_cons, List.sum_nil]
      ring
    rw [hS, hBD]
    have b1 := abs_le.mp (round2_abs (d.electricite_kwh * 0.0571))
    have b2 := abs_le.mp (round2_abs (d.gaz_kwh * 0.227))
    have b3 := abs_le.mp (round2_abs (d.carburants_litres * 2.80))
    have b4 := abs_le.mp (round2_abs (d.vehicules_km_annuel * 0.193))
    have b5 := abs_le.mp (round2_abs (d.vols_domestiques_km * 0.230))
    have b6 := abs_le.mp (round2_abs (d.vols_internationaux_km * 0.156))
    have b7 := abs_le.mp (round2_abs (d.montant_achats_annuel * 0.45
        * (1 - d.pourcentage_local / 100 * 0.20)))
    rw [abs_le]
    constructor <;>
      linarith [b1.1, b1.2, b2.1, b2.2, b3.1, b3.2, b4.1, b4.2, b5.1, b5.2,
        b6.1, b6.2, b7.1, b7.2]

theorem C6_breakdown_witness :
    ((calcBreakdown emission_factors exampleServices).all (fun p => decide (0 ≤ p.2))) = true
    ∧ |(calcScope1 emission_factors exampleServices + calcScope2 emission_factors exampleServices
          + calcScope3 emission_factors exampleServices
          - ((calcBreakdown emission_factors exampleServices).map Prod.snd).sum)
        - upstreamResidual exampleServices| ≤ 7/200 :=
  C6_breakdown exampleServices (by norm_num [exampleServices]) (by norm_num [exampleServices])
    (by norm_num [exampleServices]) (by norm_num [exampleServices])
    (by norm_num [exampleServices]) (by norm_num [exampleServices])
    (by norm_num [exampleServices]) (by norm_num [exampleServices])
    (by norm_num [exampleServices])

theorem C10_sector_fallbacks_witness :
    recProfile "unknown_sector" = logistiqueProfile
    ∧ benchProfile "unknown_sector" = servicesProfile
    ∧ kpiProfile "unknown_sector" = servicesProfile
    ∧ pctProfile "unknown_sector" = servicesProfile
    ∧ logistiqueProfile ≠ servicesProfile :=
  C10_sector_fallbacks "unknown_sector" rfl

/-- Claim C1 counterexample: at the worked example (total 705) the monthly
emissions sum to 669.75, not 705, because the fixed seasonal weight vector
sums to 11.4, not 12. -/
theorem C1_counterexample :
    (advancedKpis exampleServices
        (calcScope1 emission_factors exampleServices + calcScope2 emission_factors exampleServices
          + calcScope3 emission_factors exampleServices)
        (calcBreakdown emission_factors exampleServices)).map
        (fun k => (k.monthly_breakdown.map MonthEntry.emissions).sum)
      = Except.ok (2679/4)
    ∧ calcScope1 emission_factors exampleServices + calcScope2 emission_factors exampleServices
        + calcScope3 emission_factors exampleServices = 705
    ∧ ((2679 : ℚ)/4) ≠ 705
    ∧ seasonal_factors.sum = 57/5
    ∧ ((57 : ℚ)/5) ≠ 12 := by
  refine ⟨?_, total_example, by norm_num, by norm_num [seasonal_factors], by norm_num⟩
  have h2 : calcScope1 emission_factors exampleServices
      + calcScope2 emission_factors exampleServices
      + calcScope3 emission_factors exampleServices ≠ 0 := by
    rw [total_example]; norm_num
  rw [advancedKpis_ne _ _ _ h2]
  simp only [Except.map]
  rw [total_example]
  norm_num [advancedKpisBody, monthlyBreakdown, seasonal_factors, List.enumFrom]

/-- Claim C1 as amended: whenever the KPI synthesizer returns, the monthly
breakdown is (total/12) times the fixed seasonal weight vector, but that
vector sums to 11.4 (not 12), so the monthly emissions sum to (19/20) of the
total rather than the total. -/
theorem C1_monthly (d : CompanyData) (total : ℚ) (bd : List (String × ℚ))
    (h : okB (advancedKpis d total bd) = true) :
    (advancedKpis d total bd).map (fun k => k.monthly_breakdown)
      = Except.ok (monthlyBreakdown total)
    ∧ monthlyBreakdown total
      = (List.enumFrom 1 seasonal_factors).map (fun p => ⟨p.1, total / 12 * p.2, p.2⟩)
    ∧ ((monthlyBreakdown total).map MonthEntry.emissions).sum = (19/20) * total
    ∧ seasonal_factors.sum = 57/5 := by
  refine ⟨?_, rfl, ?_, by norm_num [seasonal_factors]⟩
  · cases hk : advancedKpis d total bd with
    | error e =>
      rw [hk] at h
      exact absurd h (by simp [okB])
    | ok k =>
      rw [advancedKpis_ok hk]
      rfl
  · norm_num [monthlyBreakdown, seasonal_factors, List.enumFrom]
    ring

theorem C1_monthly_witness :
    (advancedKpis exampleServices 705 (calcBreakdown emission_factors exampleServices)).map
        (fun k => k.monthly_breakdown)
      = Except.ok (monthlyBreakdown 705)
    ∧ monthlyBreakdown 705
      = (List.enumFrom 1 seasonal_factors).map (fun p => ⟨p.1, (705 : ℚ) / 12 * p.2, p.2⟩)
    ∧ ((monthlyBreakdown 705).map MonthEntry.emissions).sum = (19/20) * 705
    ∧ seasonal_factors.sum = 57/5 :=
  C1_monthly exampleServices 705 (calcBreakdown emission_factors exampleServices)
    (by rw [advancedKpis_ne _ _ _ (by norm_num : (705 : ℚ) ≠ 0)]; rfl)

/-- Claim C2 counterexample: on the all-zero company the scope total is 0 and
the KPI synthesizer raises ZeroDivisionError instead of returning an
efficiency score; and even where the score is defined it is the one-decimal
rounding of the clamp value, not the clamp value itself (7.4 vs 350/47 at the
worked example). -/
theorem C2_counterexample :
    (advancedKpis zeroCompany
        (calcScope1 emission_factors zeroCompany + calcScope2 emission_factors zeroCompany
          + calcScope3 emission_factors zeroCompany)
        (calcBreakdown emission_factors zeroCompany)
      = Except.error "ZeroDivisionError: float division by zero"
    ∧ calcScope1 emission_factors zeroCompany + calcScope2 emission_factors zeroCompany
        + calcScope3 emission_factors zeroCompany = 0)
    ∧ (advancedKpis exampleServices 705 (calcBreakdown emission_factors exampleServices)).map
        (fun k => k.carbon_efficiency_score) = Except.ok (37/5)
    ∧ min 100 (max 0 ((kpiProfile exampleServices.secteur).co2e_per_employee
        / ((705 : ℚ) / (parse_employee_count exampleServices.effectif : ℚ)) * 50)) = 350/47
    ∧ ((37 : ℚ)/5) ≠ 350/47 := by
  have hz : calcScope1 emission_factors zeroCompany + calcScope2 emission_factors zeroCompany
      + calcScope3 emission_factors zeroCompany = 0 := by
    norm_num [calcScope1, calcScope2, calcScope3, upstreamResidual, zeroCompany,
      exampleServices, gf_electricite, gf_gaz, gf_essence, gf_voiture, gf_avion_dom,
      gf_avion_int, gf_achats, gf_transp_red]
  have hprof : (kpiProfile exampleServices.secteur).co2e_per_employee = 4.2 := rfl
  have hcnt : ((parse_employee_count exampleServices.effectif : ℕ) : ℚ) = 25 := rfl
  have hclamp : min 100 (max 0 ((kpiProfile exampleServices.secteur).co2e_per_employee
      / ((705 : ℚ) / (parse_employee_count exampleServices.effectif : ℚ)) * 50)) = 350/47 := by
    rw [hprof, hcnt]
    norm_num
  refine ⟨⟨?_, hz⟩, ?_, hclamp, by norm_num⟩
  · rw [hz]
    simp only [advancedKpis, if_pos (parse_pos zeroCompany.effectif), pydiv]
    norm_num
  · have h1 : (advancedKpis exampleServices 705
        (calcBreakdown emission_factors exampleServices)).map
          (fun k => k.carbon_efficiency_score)
        = Except.ok (round1 (min 100 (max 0
            ((kpiProfile exampleServices.secteur).co2e_per_employee
              / ((705 : ℚ) / (parse_employee_count exampleServices.effectif : ℚ)) * 50)))) := by
      rw [advancedKpis_ne _ _ _ (by norm_num : (705 : ℚ) ≠ 0)]
      rfl
    rw [h1, hclamp]
    norm_num [round1, rndHalfEven]

/-- Claim C2 as amended: whenever the scope total is non-zero the KPI
synthesizer returns, and the efficiency score it returns is the one-decimal
rounding of clamp(0, 100, (sector per-employee average / company per-employee
intensity) · 50), which lies in [0, 100]; at a zero total it raises instead
of returning a score. -/
theorem C2_score (d : CompanyData) (total : ℚ) (bd : List (String × ℚ))
    (h : total ≠ 0) :
    (advancedKpis d total bd).map (fun k => k.carbon_efficiency_score)
      = Except.ok (round1 (min 100 (max 0
          ((kpiProfile d.secteur).co2e_per_employee
            / (total / (parse_employee_count d.effectif : ℚ)) * 50))))
    ∧ 0 ≤ round1 (min 100 (max 0
          ((kpiProfile d.secteur).co2e_per_employee
            / (total / (parse_employee_count d.effectif : ℚ)) * 50)))
    ∧ round1 (min 100 (max 0
          ((kpiProfile d.secteur).co2e_per_employee
            / (total / (parse_employee_count d.effectif : ℚ)) * 50))) ≤ 100 := by
  refine ⟨?_, round1_nonneg (le_min (by norm_num) (le_max_left 0 _)), round1_le_100 (min_le_left _ _)⟩
  rw [advancedKpis_ne _ _ _ h]
  rfl

theorem C2_score_witness :
    (advancedKpis exampleServices 705 (calcBreakdown emission_factors exampleServices)).map
        (fun k => k.carbon_efficiency_score)
      = Except.ok (round1 (min 100 (max 0
          ((kpiProfile exampleServices.secteur).co2e_per_employee
            / ((705 : ℚ) / (parse_employee_count exampleServices.effectif : ℚ)) * 50))))
    ∧ 0 ≤ round1 (min 100 (max 0
          ((kpiProfile exampleServices.secteur).co2e_per_employee
            / ((705 : ℚ) / (parse_employee_count exampleServices.effectif : ℚ)) * 50)))
    ∧ round1 (min 100 (max 0
          ((kpiProfile exampleServices.secteur).co2e_per_employee
            / ((705 : ℚ) / (parse_employee_count exampleServices.effectif : ℚ)) * 50))) ≤ 100 :=
  C2_score exampleServices 705 (calcBreakdown emission_factors exampleServices)
    (by norm_num)

/-- Claim C3 counterexample: on the all-zero company (all quantities 0,
known sector and band) the engine raises ZeroDivisionError — the first loop
iteration of `_generate_recommendations` divides by the zero breakdown
total — instead of returning a result. -/
theorem C3_counterexample :
    calculate_emissions emission_factors zeroCompany
      = Except.error "ZeroDivisionError: float division by zero" := by
  have hbd : ((calcBreakdown emission_factors zeroCompany).map Prod.snd).sum = 0 := by
    norm_num [calcBreakdown, rawBreakdown, zeroCompany, exampleServices,
      gf_electricite, gf_gaz, gf_essence, gf_voiture, gf_avion_dom, gf_avion_int,
      gf_achats, gf_transp_red, round2, rndHalfEven]
  have hrec : generateRecs zeroCompany (calcBreakdown emission_factors zeroCompany)
      = Except.error "ZeroDivisionError: float division by zero" := by
    simp only [generateRecs, if_pos hbd]
  unfold calculate_emissions
  rw [hrec]

/-- Claim C3 as amended: calculate_emissions never raises on non-negative
input with some recorded emission (positive rounded-breakdown sum) — missing
or zero individual inputs contribute zero, an unknown factor name looks up as
0.0, and an unknown sector string falls back to the default profile; only the
all-zero input (zero breakdown total) raises. -/
theorem C3_ok (d : CompanyData) (ft : List (String × ℚ)) (fname s : String)
    (he : 0 ≤ d.electricite_kwh) (hg : 0 ≤ d.gaz_kwh) (hc : 0 ≤ d.carburants_litres)
    (hv : 0 ≤ d.vehicules_km_annuel) (hfd : 0 ≤ d.vols_domestiques_km)
    (hfi : 0 ≤ d.vols_internationaux_km) (hm : 0 ≤ d.montant_achats_annuel)
    (hl0 : 0 ≤ d.pourcentage_local) (hl1 : d.pourcentage_local ≤ 100)
    (hsum : 0 < ((calcBreakdown emission_factors d).map Prod.snd).sum)
    (hft : ft.lookup fname = none)
    (hs : sector_benchmarks.lookup s = none) :
    okB (calculate_emissions emission_factors d) = true
    ∧ get_factor ft fname = 0
    ∧ kpiProfile s = servicesProfile := by
  refine ⟨?_, by simp [get_factor, hft], by simp [kpiProfile, hs]⟩
  have hS : calcScope1 emission_factors d + calcScope2 emission_factors d
      + calcScope3 emission_factors d
      = d.electricite_kwh * 0.0571 + d.gaz_kwh * 0.227 + d.carburants_litres * 2.80
        + d.vehicules_km_annuel * 0.193 + d.vols_domestiques_km * 0.230
        + d.vols_internationaux_km * 0.156
        + d.montant_achats_annuel * 0.45 * (1 - d.pourcentage_local / 100 * 0.20)
        + (d.electricite_kwh * 0.0134 + d.gaz_kwh * 0.0456) := by
    simp only [calcScope1, calcScope2, calcScope3, upstreamResidual, gf_electricite,
      gf_gaz, gf_essence, gf_voiture, gf_avion_dom, gf_avion_int, gf_achats,
      gf_transp_red]
    ring
  have hBD : ((calcBreakdown emission_factors d).map Prod.snd).sum
      = round2 (d.electricite_kwh * 0.0571) + round2 (d.gaz_kwh * 0.227)
        + round2 (d.carburants_litres * 2.80) + round2 (d.vehicules_km_annuel * 0.193)
        + round2 (d.vols_domestiques_km * 0.230)
        + round2 (d.vols_internationaux_km * 0.156)
        + round2 (d.montant_achats_annuel * 0.45
            * (1 - d.pourcentage_local / 100 * 0.20)) := by
    simp only [calcBreakdown, rawBreakdown, gf_electricite, gf_gaz, gf_essence,
      gf_voiture, gf_avion_dom, gf_avion_int, gf_achats, gf_transp_red,
      List.map_cons, List.map_nil, List.sum_cons, List.sum_nil]
    ring
  have p1 : (0 : ℚ) ≤ d.electricite_kwh * 0.0571 := mul_nonneg he (by norm_num)
  have p2 : (0 : ℚ) ≤ d.gaz_kwh * 0.227 := mul_nonneg hg (by norm_num)
  have p3 : (0 : ℚ) ≤ d.carburants_litres * 2.80 := mul_nonneg hc (by norm_num)
  have p4 : (0 : ℚ) ≤ d.vehicules_km_annuel * 0.193 := mul_nonneg hv (by norm_num)
  have p5 : (0 : ℚ) ≤ d.vols_domestiques_km * 0.230 := mul_nonneg hfd (by norm_num)
  have p6 : (0 : ℚ) ≤ d.vols_internationaux_km * 0.156 := mul_nonneg hfi (by norm_num)
  have p7 : (0 : ℚ) ≤ d.montant_achats_annuel * 0.45
      * (1 - d.pourcentage_local / 100 * 0.20) :=
    mul_nonneg (mul_nonneg hm (by norm_num)) (by linarith)
  have pu1 : (0 : ℚ) ≤ d.electricite_kwh * 0.0134 := mul_nonneg he (by norm_num)
  have pu2 : (0 : ℚ) ≤ d.gaz_kwh * 0.0456 := mul_nonneg hg (by norm_num)
  have hT : 0 < calcScope1 emission_factors d + calcScope2 emission_factors d
      + calcScope3 emission_factors d := by
    rcases lt_or_le 0 (calcScope1 emission_factors d + calcScope2 emission_factors d
      + calcScope3 emission_factors d) with h | h
    · exact h
    · exfalso
      rw [hS] at h
      have z1 : d.electricite_kwh * 0.0571 = 0 := le_antisymm (by linarith) p1
      have z2 : d.gaz_kwh * 0.227 = 0 := le_antisymm (by linarith) p2
      have z3 : d.carburants_litres * 2.80 = 0 := le_antisymm (by linarith) p3
      have z4 : d.vehicules_km_annuel * 0.193 = 0 := le_antisymm (by linarith) p4
      have z5 : d.vols_domestiques_km * 0.230 = 0 := le_antisymm (by linarith) p5
      have z6 : d.vols_internationaux_km * 0.156 = 0 := le_antisymm (by linarith) p6
      have z7 : d.montant_achats_annuel * 0.45
          * (1 - d.pourcentage_local / 100 * 0.20) = 0 := le_antisymm (by linarith) p7
      rw [hBD, z1, z2, z3, z4, z5, z6, z7, round2_zero] at hsum
      norm_num at hsum
  exact calculate_emissions_isOk emission_factors d (ne_of_gt hsum) (ne_of_gt hT)

theorem C3_ok_witness :
    okB (calculate_emissions emission_factors exampleServices) = true
    ∧ get_factor [] "facteur_inconnu" = 0
    ∧ kpiProfile "unknown_sector" = servicesProfile :=
  C3_ok exampleServices [] "facteur_inconnu" "unknown_sector"
    (by norm_num [exampleServices]) (by norm_num [exampleServices])
    (by norm_num [exampleServices]) (by norm_num [exampleServices])
    (by norm_num [exampleServices]) (by norm_num [exampleServices])
    (by norm_num [exampleServices]) (by norm_num [exampleServices])
    (by norm_num [exampleServices])
    (by rw [bd_example_sum]; norm_num) rfl rfl

/-- Recommendation list produced for `volsOnly`: the two visioconference
actions (impacts 1380 and 936) followed by the two offset actions whose text
does not match the impact-extraction regex (impact 0). -/
def c4List : List Reco :=
  [⟨"Remplacer 30% vols domestiques par visioconference", some 1380⟩,
   ⟨"Remplacer 30% vols internationaux par visioconference", some 936⟩,
   ⟨"Compenser vols restants", none⟩,
   ⟨"Compenser vols restants", none⟩]

/-- Evaluation of the recommendation ranker on `volsOnly`. -/
theorem generateRecs_volsOnly :
    generateRecs volsOnly (calcBreakdown emission_factors volsOnly) = Except.ok c4List := by
  have hbd : calcBreakdown emission_factors volsOnly
      = [("electricite", 0), ("gaz", 0), ("carburants", 0), ("vehicules", 0),
         ("vols_domestiques", 4600), ("vols_internationaux", 3120), ("achats", 0)] := by
    norm_num [calcBreakdown, rawBreakdown, volsOnly, zeroCompany, exampleServices,
      gf_electricite, gf_gaz, gf_essence, gf_voiture, gf_avion_dom, gf_avion_int,
      gf_achats, gf_transp_red, round2, rndHalfEven]
  rw [hbd]
  rw [generateRecs_ne _ _ (by norm_num)]
  norm_num [sortDesc, insertDesc, recsForSource, strategicRecs, extractCO2, fmt0,
    rndHalfEven, volsOnly, zeroCompany, exampleServices, c4List, List.foldl,
    List.flatMap, List.take]
  exact ⟨rfl, rfl⟩

/-- Claim C4 counterexample: on `volsOnly` the returned list embeds the
impacts 1380, 936, 0, 0 in order — length 4 ≤ 8, but not STRICTLY
descending, since two recommendations tie at extracted impact 0. -/
theorem C4_counterexample :
    (generateRecs volsOnly (calcBreakdown emission_factors volsOnly)).map
        (fun l => l.map extractCO2)
      = Except.ok [1380, 936, 0, 0]
    ∧ ¬ List.Chain' (fun a b : ℚ => b < a) [(1380 : ℚ), 936, 0, 0] := by
  constructor
  · rw [generateRecs_volsOnly]
    rfl
  · simp only [List.chain'_cons, List.chain'_singleton, and_true, not_and]
    intro h1 h2
    norm_num

/-- Claim C4 as amended: the recommendation list has length at most 8 and is
sorted in non-increasing (weakly descending, not strictly descending) order
of the numeric CO2-reduction impact embedded in each recommendation. -/
theorem C4_sorted (d : CompanyData) (bd : List (String × ℚ)) (l : List Reco)
    (h : generateRecs d bd = Except.ok l) :
    l.length ≤ 8 ∧ (l.map extractCO2).Sorted (fun a b => b ≤ a) := by
  by_cases hc : (bd.map Prod.snd).sum = 0
  · rw [generateRecs] at h
    rw [if_pos hc] at h
    exact absurd h (by simp)
  · rw [generateRecs_ne _ _ hc] at h
    have hl := (Except.ok.inj h).symm
    subst hl
    constructor
    · rw [List.length_take]
      exact min_le_left _ _
    · rw [List.Sorted, List.pairwise_map]
      exact List.Pairwise.sublist (List.take_sublist 8 _) (sorted_sortDesc extractCO2 _)

theorem C4_sorted_witness :
    c4List.length ≤ 8 ∧ (c4List.map extractCO2).Sorted (fun a b : ℚ => b ≤ a) :=
  C4_sorted volsOnly (calcBreakdown emission_factors volsOnly) c4List generateRecs_volsOnly

end CarbonScore
